import Mathlib

/-!
Verification of the Fleet Execution Engine (Xpod_Executor).

Shallow embedding of the Python sources:
  src/config/settings.py    - NodeConfig / SSHConfig / ExecutionConfig / ConfigManager
  src/core/node_manager.py  - SSHConnection / NodeManager
  src/core/task_executor.py - Task / TaskResult / TaskExecutor
  src/core/script_executor.py - ScriptExecutor
  src/cli/node_selector.py  - NodeSelector

External effects (the paramiko SSH transport, the filesystem, wall-clock time,
the process environment and the thread pool) are modelled as explicit
environment records passed to each operation; a `now : Nat` stands for
`time.time()` readings, and completion order of a thread pool is an arbitrary
permutation of the submitted work items.  Python strings are Lean `String`s,
and each Python string primitive used by the sources (strip, lower, split,
startswith, isdigit, int(), os.path.splitext) is re-implemented structurally
over the character list so that concrete instances evaluate in the kernel.
Wall-clock durations (`execution_time`) are not modelled.
-/

set_option linter.unusedVariables false

namespace Xpod

/-! ## Python string primitives (structural re-implementations) -/

/-- Python `str.strip()` (ASCII whitespace, as used by the sources). -/
def pyStrip (s : String) : String :=
  String.mk (((s.data.dropWhile Char.isWhitespace).reverse.dropWhile Char.isWhitespace).reverse)

/-- Python `str.lower()` (ASCII case folding, as used by the sources). -/
def pyLower (s : String) : String :=
  String.mk (s.data.map Char.toLower)

/-- Split a character list at every character satisfying `p`, keeping empty
fields, as Python `str.split(sep)` does for a one-character separator. -/
def splitFields (p : Char → Bool) : List Char → List (List Char)
  | [] => [[]]
  | c :: rest =>
    let r := splitFields p rest
    if p c then [] :: r
    else
      match r with
      | [] => [[c]]
      | h :: t => (c :: h) :: t

/-- Python `s.split(sep)` for a single-character separator `sep`. -/
def pySplitChar (sep : Char) (s : String) : List String :=
  (splitFields (fun c => c == sep) s.data).map String.mk

/-- Python `s.split()` (split on whitespace runs, dropping empty fields). -/
def pySplitWs (s : String) : List String :=
  ((splitFields Char.isWhitespace s.data).filter (fun f => !f.isEmpty)).map String.mk

/-- Does the character list `s` begin with the character list `pre`? -/
def charsLead : List Char → List Char → Bool
  | [], _ => true
  | _ :: _, [] => false
  | a :: as, b :: bs => a == b && charsLead as bs

/-- Python `s.startswith(pre)`. -/
def strLeads (pre s : String) : Bool :=
  charsLead pre.data s.data

/-- Python `s.isdigit()` (nonempty and all decimal digits, ASCII). -/
def pyIsDigit (s : String) : Bool :=
  !s.data.isEmpty && s.data.all Char.isDigit

/-- Python `int(s)` on a string of decimal digits. -/
def pyInt (s : String) : Nat :=
  s.data.foldl (fun a c => a * 10 + (c.toNat - 48)) 0

/-- Python `c in s` for a single character. -/
def pyContains (s : String) (c : Char) : Bool :=
  s.data.contains c

/-- Python `" ".join`-style joining. -/
def joinWith (sep : String) : List String → String
  | [] => ""
  | [x] => x
  | x :: y :: xs => x ++ sep ++ joinWith sep (y :: xs)

/-- Python truthiness of an optional string (`None` and `""` are falsy):
used for the `or`-chains over credentials in `SSHConnection.connect`. -/
def pyTruthy : Option String → Bool
  | none => false
  | some s => !s.isEmpty

/-- Python `a or b` on optional strings (`None`/`""` falls through to `b`). -/
def pyOr (a b : Option String) : Option String :=
  if pyTruthy a then a else b

/-- The extension part of `os.path.splitext(p)[1]`: the suffix of the basename
from its last dot, provided some non-dot character of the basename precedes
that dot (leading dots never start an extension). -/
def splitext_ext (p : String) : String :=
  let b := (p.data.reverse.takeWhile (fun c => c != '/')).reverse
  let rest := b.dropWhile (fun c => c == '.')
  let tail := rest.reverse.takeWhile (fun c => c != '.')
  if tail.length < rest.length then String.mk ('.' :: tail.reverse) else ""

/-! ## Data model (src/config/settings.py, src/core/task_executor.py) -/

/-- `NodeConfig` from src/config/settings.py (pydantic model).  Note that the
model has no `key_file` field, which matters in `SSHConnection.connect`. -/
structure NodeConfig where
  id : Int
  ip : String
  name : String
  enabled : Bool := true
  username : Option String := none
  password : Option String := none
  port : Option Int := none
deriving DecidableEq

/-- `SSHConfig` from src/config/settings.py. -/
structure SSHConfig where
  username : String := "root"
  port : Int := 22
  timeout : Int := 30
  key_file : Option String := none
  password : Option String := none
deriving DecidableEq

/-- `ExecutionConfig` from src/config/settings.py. -/
structure ExecutionConfig where
  max_concurrent : Nat := 10
  retry_count : Nat := 3
  retry_delay : Nat := 5
  command_timeout : Int := 300
deriving DecidableEq

/-- `TaskType` enum from src/core/task_executor.py. -/
inductive TaskType where
  | shell_command
  | docker_pull
  | docker_build
  | docker_push
  | file_upload
  | file_download
deriving DecidableEq

/-- `TaskResult` dataclass from src/core/task_executor.py (the float
`execution_time` field, pure wall-clock accounting, is not modelled). -/
structure TaskResult where
  node_id : Int
  node_name : String
  node_ip : String
  task_type : TaskType
  command : String
  success : Bool
  exit_code : Option Int := none
  stdout : String := ""
  stderr : String := ""
  error_message : String := ""
  retry_count : Nat := 0
deriving DecidableEq

/-- `Task` dataclass from src/core/task_executor.py.  `retry_count` and
`retry_delay` are declared `int` in the source and are only ever supplied
from the non-negative configuration values, hence `Nat`. -/
structure Task where
  task_type : TaskType
  command : String
  node_ids : List Int
  timeout : Int := 300
  retry_count : Nat := 3
  retry_delay : Nat := 5
  extra_params : Option (List (String × String)) := none
deriving DecidableEq

/-! ## ConfigManager (src/config/settings.py) -/

/-- `ConfigManager.get_nodes()` with the default `enabled_only=True`. -/
def get_nodes (cfg : List NodeConfig) : List NodeConfig :=
  cfg.filter (fun n => n.enabled)

/-- `ConfigManager.get_node_by_id`: first node with the given id. -/
def get_node_by_id (cfg : List NodeConfig) (node_id : Int) : Option NodeConfig :=
  cfg.find? (fun n => n.id == node_id)

/-- `ConfigManager.get_nodes_by_ids`: resolve each id in order, silently
dropping ids with no matching node. -/
def get_nodes_by_ids (cfg : List NodeConfig) (node_ids : List Int) : List NodeConfig :=
  node_ids.filterMap (get_node_by_id cfg)

/-! ## SSHConnection (src/core/node_manager.py) -/

/-- Mutable state of an `SSHConnection`: `connected` flag, whether
`self.client` currently holds a (possibly unconnected) paramiko client,
and the `last_activity` timestamp. -/
structure ConnState where
  connected : Bool
  hasClient : Bool
  last_activity : Nat
deriving DecidableEq

/-- Environment of one `SSHConnection.connect` call: whether the configured
key file exists on disk, the `SSH_PASSWORD` environment variable, whether the
paramiko handshake would succeed, and the `time.time()` reading. -/
structure ConnectEnv where
  keyFileExists : Bool
  envPassword : Option String
  dialOk : Bool
  now : Nat
deriving DecidableEq

/-- The password `or`-chain of `SSHConnection.connect`:
`self.node.password or self.ssh_config.password or os.getenv('SSH_PASSWORD')`. -/
def resolve_password (node : NodeConfig) (ssh : SSHConfig) (env : ConnectEnv) : Option String :=
  pyOr (pyOr node.password ssh.password) env.envPassword

/-- Credential resolution block of `SSHConnection.connect`.  `NodeConfig` has
no `key_file` attribute, so the `hasattr` guard in the source always fails and
only `ssh_config.key_file` is consulted.  When a truthy key file is configured
and exists, key auth is used; when it is configured but missing, or not
configured, the password chain is consulted, and a missing password raises
`ValueError` (making authentication unresolvable). -/
def connect_auth_ok (node : NodeConfig) (ssh : SSHConfig) (env : ConnectEnv) : Bool :=
  if pyTruthy ssh.key_file then
    if env.keyFileExists then true
    else pyTruthy (resolve_password node ssh env)
  else pyTruthy (resolve_password node ssh env)

/-- `SSHConnection.connect`: resolve credentials (`connect_auth_ok`), then
dial.  On success set `connected`, keep the fresh client and refresh
`last_activity`; any raised failure (unresolvable credentials, failed
handshake) is caught by the surrounding `except`, which clears `connected`,
closes and drops the partially-open client, and returns `False`.  The
function is total: no failure escapes to the caller. -/
def SSHConnection.connect (node : NodeConfig) (ssh : SSHConfig) (env : ConnectEnv)
    (st : ConnState) : Bool × ConnState :=
  if connect_auth_ok node ssh env && env.dialOk then
    (true, { connected := true, hasClient := true, last_activity := env.now })
  else
    (false, { connected := false, hasClient := false, last_activity := st.last_activity })

/-- `SSHConnection.disconnect`: close and drop the client, clear the flag. -/
def SSHConnection.disconnect (st : ConnState) : ConnState :=
  { st with connected := false, hasClient := false }

/-- `SSHConnection.is_alive`: connected flag set, client present, and the
underlying transport reports active (probing errors count as not alive). -/
def SSHConnection.is_alive (st : ConnState) (transportActive : Bool) : Bool :=
  st.connected && st.hasClient && transportActive

/-- Errors raised by `SSHConnection.execute_command`. -/
inductive ExecError where
  | notConnected (name : String)
  | transport (msg : String)
deriving DecidableEq

/-- The `str(e)` rendering of an `ExecError`, as captured into
`TaskResult.error_message` by the callers. -/
def ExecError.message : ExecError → String
  | .notConnected name => "节点 " ++ name ++ " 未连接"
  | .transport msg => msg

/-- `SSHConnection.execute_command`.  `outcome` is the behaviour of the
underlying `exec_command` invocation: `.ok (exit, stdout, stderr)` for a
completed remote command (output already permissively decoded), `.error m`
for a transport fault, which the source re-raises unchanged. -/
def SSHConnection.execute_command (node : NodeConfig) (st : ConnState)
    (outcome : Except String (Int × String × String)) (now : Nat) :
    Except ExecError ((Int × String × String) × ConnState) :=
  if !st.connected || !st.hasClient then
    .error (.notConnected node.name)
  else
    match outcome with
    | .error m => .error (.transport m)
    | .ok t => .ok (t, { st with last_activity := now })

/-! ## NodeManager (src/core/node_manager.py) -/

/-- `NodeManager.disconnect_all`: disconnect every held connection, then clear
the node-to-connection map.  The returned pair is the new (empty) map and the
final states of the previously held connections. -/
def NodeManager.disconnect_all (pool : List (Int × ConnState)) :
    List (Int × ConnState) × List ConnState :=
  let closed := pool.map (fun kv => SSHConnection.disconnect kv.2)
  ([], closed)

/-! ## Claims C3, C4, C9 -/

/-- Claim C3: `SSHConnection.connect` never raises to its caller (it is a
total function returning a boolean); on success it sets `connected := true`
and refreshes `last_activity` to the current time; on any failure — a failed
handshake (`dialOk = false`) or missing credentials — it clears `connected`,
closes and clears the partially-open client handle, and returns `false`,
leaving `last_activity` untouched. -/
theorem connect_flag_discipline (node : NodeConfig) (ssh : SSHConfig)
    (env : ConnectEnv) (st : ConnState) :
    ((SSHConnection.connect node ssh env st).2.connected
        = (SSHConnection.connect node ssh env st).1) ∧
    ((SSHConnection.connect node ssh env st).2.hasClient
        = (SSHConnection.connect node ssh env st).1) ∧
    ((SSHConnection.connect node ssh env st).2.last_activity
        = if (SSHConnection.connect node ssh env st).1 then env.now else st.last_activity) ∧
    (env.dialOk = false → (SSHConnection.connect node ssh env st).1 = false) ∧
    (ssh.key_file = none → node.password = none → ssh.password = none →
      env.envPassword = none → (SSHConnection.connect node ssh env st).1 = false) := by
  refine ⟨?_, ?_, ?_, ?_, ?_⟩
  · unfold SSHConnection.connect
    split <;> rfl
  · unfold SSHConnection.connect
    split <;> rfl
  · unfold SSHConnection.connect
    split <;> simp
  · intro h
    unfold SSHConnection.connect
    simp [h]
  · intro h1 h2 h3 h4
    unfold SSHConnection.connect
    simp [h1, h2, h3, h4, connect_auth_ok, resolve_password, pyOr, pyTruthy]

/-- Witness for C3: a node with no credentials at all fails to connect. -/
theorem connect_flag_discipline_witness :
    (SSHConnection.connect { id := 1, ip := "10.0.0.1", name := "n1" } {}
        { keyFileExists := false, envPassword := none, dialOk := true, now := 7 }
        { connected := false, hasClient := false, last_activity := 0 }).1 = false :=
  (connect_flag_discipline { id := 1, ip := "10.0.0.1", name := "n1" } {}
      { keyFileExists := false, envPassword := none, dialOk := true, now := 7 }
      { connected := false, hasClient := false, last_activity := 0 }).2.2.2.2
    rfl rfl rfl rfl

/-- Claim C4: `SSHConnection.execute_command` raises the not-connected error
exactly when the session is not connected (flag unset or no client handle);
when connected, a completed remote command yields the `(exit, stdout, stderr)`
triple and refreshes `last_activity`, and a transport fault is propagated
unchanged. -/
theorem execute_command_spec (node : NodeConfig) (st : ConnState)
    (outcome : Except String (Int × String × String)) (now : Nat) :
    (SSHConnection.execute_command node st outcome now
        = .error (.notConnected node.name)
      ↔ ¬(st.connected = true ∧ st.hasClient = true)) ∧
    (st.connected = true → st.hasClient = true →
      (∀ t, outcome = .ok t →
        SSHConnection.execute_command node st outcome now
          = .ok (t, { st with last_activity := now })) ∧
      (∀ m, outcome = .error m →
        SSHConnection.execute_command node st outcome now
          = .error (.transport m))) := by
  unfold SSHConnection.execute_command
  constructor
  · constructor
    · intro h
      cases outcome <;> cases hc : st.connected <;> cases hk : st.hasClient <;> simp_all
    · intro h
      cases outcome <;> cases hc : st.connected <;> cases hk : st.hasClient <;> simp_all
  · intro hc hk
    constructor
    · intro t ht
      subst ht
      simp [hc, hk]
    · intro m hm
      subst hm
      simp [hc, hk]

/-- Witness for C4: on a connected session a completed command comes back as
its triple with the activity timestamp refreshed. -/
theorem execute_command_spec_witness :
    SSHConnection.execute_command { id := 1, ip := "10.0.0.1", name := "n1" }
        { connected := true, hasClient := true, last_activity := 0 }
        (.ok (0, "hi", "")) 5
      = .ok ((0, "hi", ""),
             { connected := true, hasClient := true, last_activity := 5 }) :=
  ((execute_command_spec { id := 1, ip := "10.0.0.1", name := "n1" }
      { connected := true, hasClient := true, last_activity := 0 }
      (.ok (0, "hi", "")) 5).2 rfl rfl).1 (0, "hi", "") rfl

/-- Claim C9: `NodeManager.disconnect_all` is idempotent and total: after each
call the node-to-connection map is empty, calling it again on the emptied pool
yields the empty pool again (and no connections to close), and every
previously held connection has its connected flag cleared and its client
handle dropped. -/
theorem disconnect_all_idempotent (pool : List (Int × ConnState)) :
    (NodeManager.disconnect_all pool).1 = [] ∧
    (NodeManager.disconnect_all (NodeManager.disconnect_all pool).1).1 = [] ∧
    (NodeManager.disconnect_all (NodeManager.disconnect_all pool).1).2 = [] ∧
    (∀ c ∈ (NodeManager.disconnect_all pool).2,
      c.connected = false ∧ c.hasClient = false) := by
  refine ⟨rfl, rfl, rfl, ?_⟩
  intro c hc
  simp only [NodeManager.disconnect_all, List.mem_map] at hc
  obtain ⟨kv, _, rfl⟩ := hc
  exact ⟨rfl, rfl⟩

/-- Witness for C9 on a two-connection pool. -/
theorem disconnect_all_idempotent_witness :
    (NodeManager.disconnect_all
        [(1, { connected := true, hasClient := true, last_activity := 3 }),
         (2, { connected := false, hasClient := true, last_activity := 4 })]).1 = [] ∧
    ∀ c ∈ (NodeManager.disconnect_all
        [(1, { connected := true, hasClient := true, last_activity := 3 }),
         (2, { connected := false, hasClient := true, last_activity := 4 })]).2,
      c.connected = false :=
  ⟨(disconnect_all_idempotent _).1,
   fun c hc => ((disconnect_all_idempotent
      [(1, { connected := true, hasClient := true, last_activity := 3 }),
       (2, { connected := false, hasClient := true, last_activity := 4 })]).2.2.2 c hc).1⟩

/-! ## NodeSelector (src/cli/node_selector.py) -/

/-- `NodeSelector._is_range_format`: does the token match `^\d+-\d+$`? -/
def is_range_format (part : String) : Bool :=
  match pySplitChar '-' part with
  | [a, b] => !a.isEmpty && !b.isEmpty && a.data.all Char.isDigit && b.data.all Char.isDigit
  | _ => false

/-- `NodeSelector._parse_range`: inclusive numeric-id range over the full node
list, swapping the bounds when given in descending order; any parse failure
(`ValueError`) degrades to the empty list. -/
def parse_range (all_nodes : List NodeConfig) (range_str : String) : List NodeConfig :=
  match pySplitChar '-' range_str with
  | [a, b] =>
    if pyIsDigit a && pyIsDigit b then
      let start_id : Int := (pyInt a : Nat)
      let end_id : Int := (pyInt b : Nat)
      let lo := if start_id > end_id then end_id else start_id
      let hi := if start_id > end_id then start_id else end_id
      all_nodes.filter (fun n => lo ≤ n.id && n.id ≤ hi)
    else []
  | _ => []

/-- `NodeSelector._find_single_node`: exact numeric id match first, then
case-insensitive name match, then exact ip match; `None` when nothing
matches.  The identifier arrives already lowercased. -/
def find_single_node (all_nodes : List NodeConfig) (identifier : String) : Option NodeConfig :=
  let byId : Option NodeConfig :=
    if pyIsDigit identifier then
      all_nodes.find? (fun n => n.id == (pyInt identifier : Nat))
    else none
  match byId with
  | some n => some n
  | none =>
    match all_nodes.find? (fun n => pyLower n.name == identifier) with
    | some n => some n
    | none => all_nodes.find? (fun n => n.ip == identifier)

/-- The per-token resolution of one comma-separated token. -/
def token_nodes (all_nodes : List NodeConfig) (part : String) : List NodeConfig :=
  if part.isEmpty then []
  else if pyContains part '-' && is_range_format part then parse_range all_nodes part
  else
    match find_single_node all_nodes part with
    | some n => [n]
    | none => []

/-- The concatenation, in encounter order, of the per-token results of the
comma-separated tokens of a (stripped, lowercased) selection expression. -/
def selected_tokens (all_nodes : List NodeConfig) (selection : String) : List NodeConfig :=
  let s := pyLower (pyStrip selection)
  let parts := (pySplitChar ',' s).map pyStrip
  parts.foldr (fun part acc => token_nodes all_nodes part ++ acc) []

/-- The dedup-by-id loop at the end of `NodeSelector.parse_selection`:
`seen_ids` accumulates ids already kept, first occurrence wins. -/
def dedup_by_id (seen : List Int) : List NodeConfig → List NodeConfig
  | [] => []
  | n :: rest =>
    if seen.contains n.id then dedup_by_id seen rest
    else n :: dedup_by_id (n.id :: seen) rest

/-- Does `parse_selection` take one of its keyword branches (blank selection
or one of the four `all*` keywords) rather than the token branch? -/
def keyword_branch (selection : String) : Bool :=
  pyStrip selection == "" ||
  pyLower (pyStrip selection) == "all" ||
  pyLower (pyStrip selection) == "all-enabled" ||
  pyLower (pyStrip selection) == "all-disabled" ||
  pyLower (pyStrip selection) == "all-all"

/-- `NodeSelector.parse_selection` over the configured node list (the
selector's `all_nodes` and `config_manager.get_nodes()` both read the same
configured list). -/
def parse_selection (cfg : List NodeConfig) (selection : String) : List NodeConfig :=
  if pyStrip selection == "" then get_nodes cfg
  else if pyLower (pyStrip selection) == "all"
       || pyLower (pyStrip selection) == "all-enabled" then get_nodes cfg
  else if pyLower (pyStrip selection) == "all-disabled" then cfg.filter (fun n => !n.enabled)
  else if pyLower (pyStrip selection) == "all-all" then cfg
  else dedup_by_id [] (selected_tokens cfg selection)

/-! ### Dedup lemmas for C5 -/

/-- Elements kept by the dedup loop have unseen ids and are the first
occurrence of their id in the input list. -/
theorem dedup_by_id_mem_find (seen : List Int) (l : List NodeConfig) :
    ∀ n ∈ dedup_by_id seen l,
      seen.contains n.id = false ∧ l.find? (fun m => m.id == n.id) = some n := by
  induction l generalizing seen with
  | nil => intro n hn; simp [dedup_by_id] at hn
  | cons h t ih =>
    intro n hn
    by_cases hs : seen.contains h.id
    · rw [dedup_by_id, if_pos hs] at hn
      obtain ⟨hn1, hn2⟩ := ih seen n hn
      refine ⟨hn1, ?_⟩
      have hne : (h.id == n.id) = false := by
        rw [beq_eq_false_iff_ne]
        intro hb
        rw [hb] at hs
        rw [hn1] at hs
        exact Bool.false_ne_true hs
      simp [List.find?_cons, hne, hn2]
    · rw [dedup_by_id, if_neg hs] at hn
      rw [List.mem_cons] at hn
      rcases hn with hn | hn
      · subst hn
        refine ⟨by simpa using hs, ?_⟩
        simp [List.find?_cons]
      · obtain ⟨hn1, hn2⟩ := ih (h.id :: seen) n hn
        simp only [List.contains_cons, Bool.or_eq_false_iff] at hn1
        refine ⟨hn1.2, ?_⟩
        have hne : (h.id == n.id) = false := by
          rw [beq_eq_false_iff_ne]
          have := hn1.1
          rw [beq_eq_false_iff_ne] at this
          exact fun hb => this hb.symm
        simp [List.find?_cons, hne, hn2]

/-- The dedup loop returns a sublist of its input (encounter order kept). -/
theorem dedup_by_id_sublist (seen : List Int) (l : List NodeConfig) :
    List.Sublist (dedup_by_id seen l) l := by
  induction l generalizing seen with
  | nil => simp [dedup_by_id]
  | cons h t ih =>
    by_cases hs : seen.contains h.id
    · rw [dedup_by_id, if_pos hs]
      exact List.Sublist.cons h (ih seen)
    · rw [dedup_by_id, if_neg hs]
      exact List.Sublist.cons₂ h (ih (h.id :: seen))

/-- Every unseen id of the input survives the dedup loop. -/
theorem dedup_by_id_complete (seen : List Int) (l : List NodeConfig) :
    ∀ n ∈ l, seen.contains n.id = false →
      ∃ m ∈ dedup_by_id seen l, m.id = n.id := by
  induction l generalizing seen with
  | nil => intro n hn; simp at hn
  | cons h t ih =>
    intro n hn hseen
    rw [List.mem_cons] at hn
    by_cases hs : seen.contains h.id
    · rw [dedup_by_id, if_pos hs]
      rcases hn with hn | hn
      · subst hn; rw [hseen] at hs; exact absurd hs (by simp)
      · exact ih seen n hn hseen
    · rw [dedup_by_id, if_neg hs]
      rcases hn with hn | hn
      · subst hn; exact ⟨n, by simp⟩
      · by_cases hid : n.id = h.id
        · exact ⟨h, by simp, hid.symm⟩
        · have hcontains : (h.id :: seen).contains n.id = false := by
            simp only [List.contains_cons, Bool.or_eq_false_iff]
            refine ⟨?_, hseen⟩
            rw [beq_eq_false_iff_ne]
            exact hid
          obtain ⟨m, hm1, hm2⟩ := ih (h.id :: seen) n hn hcontains
          exact ⟨m, by simp [hm1], hm2⟩

/-- The ids kept by the dedup loop are pairwise distinct. -/
theorem dedup_by_id_nodup (seen : List Int) (l : List NodeConfig) :
    ((dedup_by_id seen l).map (fun n => n.id)).Nodup := by
  induction l generalizing seen with
  | nil => simp [dedup_by_id]
  | cons h t ih =>
    by_cases hs : seen.contains h.id
    · rw [dedup_by_id, if_pos hs]; exact ih seen
    · rw [dedup_by_id, if_neg hs]
      simp only [List.map_cons, List.nodup_cons]
      refine ⟨?_, ih (h.id :: seen)⟩
      intro hmem
      simp only [List.mem_map] at hmem
      obtain ⟨m, hm, hid⟩ := hmem
      have := (dedup_by_id_mem_find (h.id :: seen) t m hm).1
      rw [hid] at this
      simp at this

/-! ### Claims C5, C6 -/

/-- Claim C5: over a configuration with pairwise-distinct node ids, the list
returned by `NodeSelector.parse_selection` never contains two nodes with the
same id; and in the token branch (any non-keyword expression) the result is
the comma-separated tokens' concatenated results deduplicated by id keeping
the first occurrence: it is a sublist of that concatenation (encounter order
preserved, not sorted), each returned node is the first occurrence of its id
there, and every id produced by some token is represented. -/
theorem parse_selection_dedup_order (cfg : List NodeConfig) (selection : String)
    (hnd : (cfg.map (fun n => n.id)).Nodup) :
    ((parse_selection cfg selection).map (fun n => n.id)).Nodup ∧
    (keyword_branch selection = false →
      List.Sublist (parse_selection cfg selection) (selected_tokens cfg selection) ∧
      (∀ n ∈ parse_selection cfg selection,
        (selected_tokens cfg selection).find? (fun m => m.id == n.id) = some n) ∧
      (∀ n ∈ selected_tokens cfg selection,
        ∃ m ∈ parse_selection cfg selection, m.id = n.id)) := by
  have hfilter : ∀ p : NodeConfig → Bool,
      ((cfg.filter p).map (fun n => n.id)).Nodup := fun p =>
    List.Nodup.sublist (List.Sublist.map (fun n => n.id) (List.filter_sublist cfg)) hnd
  constructor
  · unfold parse_selection
    split
    · exact hfilter _
    · split
      · exact hfilter _
      · split
        · exact hfilter _
        · split
          · exact hnd
          · exact dedup_by_id_nodup [] _
  · intro hkw
    unfold keyword_branch at hkw
    simp only [Bool.or_eq_false_iff] at hkw
    obtain ⟨⟨⟨⟨hk0, hk1⟩, hk2⟩, hk3⟩, hk4⟩ := hkw
    have hps : parse_selection cfg selection = dedup_by_id [] (selected_tokens cfg selection) := by
      unfold parse_selection
      rw [if_neg (by simp [hk0]), if_neg (by simp [hk1, hk2]),
          if_neg (by simp [hk3]), if_neg (by simp [hk4])]
    rw [hps]
    refine ⟨dedup_by_id_sublist [] _, ?_, ?_⟩
    · intro n hn
      exact (dedup_by_id_mem_find [] _ n hn).2
    · intro n hn
      exact dedup_by_id_complete [] _ n hn rfl

/-- Witness for C5: the scenario selection `"0,2-4,10"` over nodes with ids
{0,1,2,3,4,5,10} resolves, deduplicated and in encounter order, to
`[0, 2, 3, 4, 10]`. -/
theorem parse_selection_dedup_order_witness :
    ((parse_selection
        [{ id := 0, ip := "10.0.0.0", name := "node-0" },
         { id := 1, ip := "10.0.0.1", name := "node-1" },
         { id := 2, ip := "10.0.0.2", name := "node-2" },
         { id := 3, ip := "10.0.0.3", name := "node-3" },
         { id := 4, ip := "10.0.0.4", name := "node-4" },
         { id := 5, ip := "10.0.0.5", name := "node-5" },
         { id := 10, ip := "10.0.0.10", name := "node-10" }]
        "0,2-4,10").map (fun n => n.id)).Nodup ∧
    ∀ n ∈ parse_selection
        [{ id := 0, ip := "10.0.0.0", name := "node-0" },
         { id := 1, ip := "10.0.0.1", name := "node-1" },
         { id := 2, ip := "10.0.0.2", name := "node-2" },
         { id := 3, ip := "10.0.0.3", name := "node-3" },
         { id := 4, ip := "10.0.0.4", name := "node-4" },
         { id := 5, ip := "10.0.0.5", name := "node-5" },
         { id := 10, ip := "10.0.0.10", name := "node-10" }]
        "0,2-4,10",
      (selected_tokens
        [{ id := 0, ip := "10.0.0.0", name := "node-0" },
         { id := 1, ip := "10.0.0.1", name := "node-1" },
         { id := 2, ip := "10.0.0.2", name := "node-2" },
         { id := 3, ip := "10.0.0.3", name := "node-3" },
         { id := 4, ip := "10.0.0.4", name := "node-4" },
         { id := 5, ip := "10.0.0.5", name := "node-5" },
         { id := 10, ip := "10.0.0.10", name := "node-10" }]
        "0,2-4,10").find? (fun m => m.id == n.id) = some n := by
  refine ⟨(parse_selection_dedup_order _ _ (by decide)).1, ?_⟩
  exact ((parse_selection_dedup_order _ "0,2-4,10" (by decide)).2 (by decide)).2.1

/-- Claim C6: for any node set, `all-enabled` selects exactly the enabled
nodes and `all-disabled` exactly the disabled ones, so `all-all` (the whole
set) contains their union and the two are disjoint. -/
theorem parse_selection_keyword_algebra (cfg : List NodeConfig) :
    (∀ n, n ∈ parse_selection cfg "all-enabled" ∨ n ∈ parse_selection cfg "all-disabled" →
      n ∈ parse_selection cfg "all-all") ∧
    (∀ n, n ∈ parse_selection cfg "all-enabled" → n ∉ parse_selection cfg "all-disabled") := by
  have he : parse_selection cfg "all-enabled" = cfg.filter (fun n => n.enabled) := rfl
  have hd : parse_selection cfg "all-disabled" = cfg.filter (fun n => !n.enabled) := rfl
  have ha : parse_selection cfg "all-all" = cfg := rfl
  constructor
  · intro n hn
    rw [ha]
    rcases hn with hn | hn
    · exact List.mem_of_mem_filter (he ▸ hn)
    · exact List.mem_of_mem_filter (hd ▸ hn)
  · intro n hn hn'
    rw [he, List.mem_filter] at hn
    rw [hd, List.mem_filter] at hn'
    rw [hn.2] at hn'
    simp at hn'

/-- Witness for C6 on a two-node set with one enabled and one disabled node. -/
theorem parse_selection_keyword_algebra_witness :
    ({ id := 1, ip := "a", name := "n1", enabled := true } : NodeConfig) ∈
      parse_selection
        [{ id := 1, ip := "a", name := "n1", enabled := true },
         { id := 2, ip := "b", name := "n2", enabled := false }] "all-all" ∧
    ({ id := 1, ip := "a", name := "n1", enabled := true } : NodeConfig) ∉
      parse_selection
        [{ id := 1, ip := "a", name := "n1", enabled := true },
         { id := 2, ip := "b", name := "n2", enabled := false }] "all-disabled" :=
  ⟨(parse_selection_keyword_algebra
      [{ id := 1, ip := "a", name := "n1", enabled := true },
       { id := 2, ip := "b", name := "n2", enabled := false }]).1
      { id := 1, ip := "a", name := "n1", enabled := true } (Or.inl (by decide)),
   (parse_selection_keyword_algebra
      [{ id := 1, ip := "a", name := "n1", enabled := true },
       { id := 2, ip := "b", name := "n2", enabled := false }]).2
      { id := 1, ip := "a", name := "n1", enabled := true } (by decide)⟩

/-! ## TaskExecutor (src/core/task_executor.py) -/

/-- Environment of one `execute_task_on_node` attempt: the transport probe
used by `is_alive`, the environment of the `connect` call made when the
session is not alive, and the behaviour and timestamp of the
`execute_command` invocation. -/
structure AttemptEnv where
  transportActive : Bool
  connectEnv : ConnectEnv
  cmdOutcome : Except String (Int × String × String)
  cmdNow : Nat

/-- The remote command rendered for a task kind: `ShellCommand` runs the
command verbatim, the docker kinds wrap the image/path argument, and the
file-transfer kinds have no command (the source raises 不支持的任务类型). -/
def rendered_command (task : Task) : Option String :=
  match task.task_type with
  | .shell_command => some task.command
  | .docker_pull => some ("docker pull " ++ task.command)
  | .docker_build =>
    let tag := match task.extra_params with
      | none => "latest"
      | some ps => (ps.lookup "tag").getD "latest"
    some ("docker build -t " ++ tag ++ " " ++ task.command)
  | .docker_push => some ("docker push " ++ task.command)
  | .file_upload => none
  | .file_download => none

/-- `TaskExecutor.execute_task_on_node`: build the base result, get the
node's pooled connection, reconnect when not alive, run the rendered remote
command, and fold any raised failure into the result's `error_message`;
always returns exactly one `TaskResult` (the surrounding `except` catches
everything).  The connection state is threaded through explicitly. -/
def execute_task_on_node (node : NodeConfig) (ssh : SSHConfig) (task : Task)
    (st : ConnState) (env : AttemptEnv) : TaskResult × ConnState :=
  let base : TaskResult :=
    { node_id := node.id, node_name := node.name, node_ip := node.ip,
      task_type := task.task_type, command := task.command, success := false }
  match (if SSHConnection.is_alive st env.transportActive then (true, st)
         else SSHConnection.connect node ssh env.connectEnv st) with
  | (false, st') => ({ base with error_message := "无法连接到节点 " ++ node.name }, st')
  | (true, st') =>
    match rendered_command task with
    | none => ({ base with error_message := "不支持的任务类型" }, st')
    | some _cmd =>
      match SSHConnection.execute_command node st' env.cmdOutcome env.cmdNow with
      | .error e => ({ base with error_message := e.message }, st')
      | .ok ((code, out, err), st'') =>
        ({ base with exit_code := some code, stdout := out, stderr := err,
                     success := (code == 0) }, st'')

/-- The retry loop of `TaskExecutor.execute_task_with_retry`: `attempt` is
the python loop counter, `fuel` the remaining extra attempts.  On success the
result (annotated with the attempt number) returns immediately; otherwise the
loop sleeps and retries, and the last attempt's result is returned. -/
def retry_loop (node : NodeConfig) (ssh : SSHConfig) (task : Task)
    (envs : Nat → AttemptEnv) (attempt : Nat) (fuel : Nat) (st : ConnState) :
    TaskResult × ConnState :=
  let (r, st') := execute_task_on_node node ssh task st (envs attempt)
  let r := { r with retry_count := attempt }
  match fuel with
  | 0 => (r, st')
  | fuel' + 1 =>
    if r.success then (r, st')
    else retry_loop node ssh task envs (attempt + 1) fuel' st'

/-- `TaskExecutor.execute_task_with_retry`: up to `task.retry_count + 1`
attempts; returns the first successful attempt's result, else the last
attempt's, each annotated with the number of retries consumed. -/
def execute_task_with_retry (node : NodeConfig) (ssh : SSHConfig) (task : Task)
    (envs : Nat → AttemptEnv) (st : ConnState) : TaskResult × ConnState :=
  retry_loop node ssh task envs 0 task.retry_count st

/-- The body of the `as_completed` collection loop of
`TaskExecutor.execute_task`: a future that completed yields its worker's
result, a future that raised yields a synthetic failed result for its node. -/
def collect_result (task : Task) (node : NodeConfig) :
    Except String TaskResult → TaskResult
  | .ok r => r
  | .error e =>
    { node_id := node.id, node_name := node.name, node_ip := node.ip,
      task_type := task.task_type, command := task.command, success := false,
      error_message := e }

/-- The outcome of one submitted worker future: `fault node = some e` models
the worker raising an unexpected exception `e` (surfaced by
`future.result()`), otherwise the worker runs `execute_task_with_retry`. -/
def future_outcome (ssh : SSHConfig) (task : Task)
    (pool : NodeConfig → ConnState) (envs : NodeConfig → Nat → AttemptEnv)
    (fault : NodeConfig → Option String) (node : NodeConfig) :
    Except String TaskResult :=
  match fault node with
  | some e => .error e
  | none => .ok (execute_task_with_retry node ssh task (envs node) (pool node)).1

/-- `TaskExecutor.execute_task`: resolve target nodes (explicit id list, or
all enabled nodes when the list is empty), short-circuit an empty resolution
to `[]`, submit one worker per node to the thread pool, and collect one
result per future in completion order — `order`, an arbitrary permutation,
models `as_completed`. -/
def execute_task (cfg : List NodeConfig) (ssh : SSHConfig) (task : Task)
    (pool : NodeConfig → ConnState) (envs : NodeConfig → Nat → AttemptEnv)
    (fault : NodeConfig → Option String)
    (order : List NodeConfig → List NodeConfig) : List TaskResult :=
  let nodes := if task.node_ids.isEmpty then get_nodes cfg
               else get_nodes_by_ids cfg task.node_ids
  if nodes.isEmpty then []
  else (order nodes).map (fun n => collect_result task n (future_outcome ssh task pool envs fault n))

/-! ### Structural lemmas for C1/C2 -/

/-- Every branch of `execute_task_on_node` reports the node's own id. -/
theorem execute_task_on_node_node_id (node : NodeConfig) (ssh : SSHConfig)
    (task : Task) (st : ConnState) (env : AttemptEnv) :
    (execute_task_on_node node ssh task st env).1.node_id = node.id := by
  unfold execute_task_on_node
  split <;> (try split) <;> (try split) <;> rfl

/-- The retry loop reports the node's own id. -/
theorem retry_loop_node_id (node : NodeConfig) (ssh : SSHConfig) (task : Task)
    (envs : Nat → AttemptEnv) (attempt fuel : Nat) (st : ConnState) :
    (retry_loop node ssh task envs attempt fuel st).1.node_id = node.id := by
  induction fuel generalizing attempt st with
  | zero =>
    rw [retry_loop]
    exact execute_task_on_node_node_id node ssh task st (envs attempt)
  | succ fuel' ih =>
    rw [retry_loop]
    simp only []
    split
    · exact execute_task_on_node_node_id node ssh task st (envs attempt)
    · exact ih (attempt + 1) _

/-- Collected results (worker result or synthetic) report the node's id. -/
theorem collect_result_node_id (ssh : SSHConfig) (task : Task)
    (pool : NodeConfig → ConnState) (envs : NodeConfig → Nat → AttemptEnv)
    (fault : NodeConfig → Option String) (node : NodeConfig) :
    (collect_result task node (future_outcome ssh task pool envs fault node)).node_id
      = node.id := by
  unfold future_outcome
  cases h : fault node with
  | some e => rfl
  | none => exact retry_loop_node_id node ssh task (envs node) 0 task.retry_count (pool node)

/-- A node resolved by id carries that id. -/
theorem get_node_by_id_id (cfg : List NodeConfig) (i : Int) (n : NodeConfig)
    (h : get_node_by_id cfg i = some n) : n.id = i := by
  have := List.find?_some h
  simpa using this

/-- The ids of `get_nodes_by_ids` are the requested ids that resolve,
in request order. -/
theorem get_nodes_by_ids_map_id (cfg : List NodeConfig) (ids : List Int) :
    (get_nodes_by_ids cfg ids).map (fun n => n.id)
      = ids.filter (fun i => (get_node_by_id cfg i).isSome) := by
  induction ids with
  | nil => rfl
  | cons i rest ih =>
    unfold get_nodes_by_ids at *
    cases h : get_node_by_id cfg i with
    | none => simp [List.filterMap_cons, h, List.filter_cons, ih]
    | some n =>
      simp [List.filterMap_cons, h, List.filter_cons, ih]
      exact get_node_by_id_id cfg i n h

/-! ### Claims C1, C2 -/

/-- Claim C2: if every attempt of `execute_task_on_node` fails (whatever the
connection state it is given), `execute_task_with_retry` returns exactly one
`TaskResult` — the last attempt's — whose `retry_count` annotation equals
`task.retry_count` (the retries consumed) and whose `success` is `false`;
with `task.retry_count = 3` that annotation is `3`. -/
theorem execute_task_with_retry_exhausted (node : NodeConfig) (ssh : SSHConfig)
    (task : Task) (envs : Nat → AttemptEnv) (st : ConnState)
    (hfail : ∀ (k : Nat) (s : ConnState),
      (execute_task_on_node node ssh task s (envs k)).1.success = false) :
    (execute_task_with_retry node ssh task envs st).1.retry_count = task.retry_count ∧
    (execute_task_with_retry node ssh task envs st).1.success = false := by
  have key : ∀ (fuel attempt : Nat) (s : ConnState),
      (retry_loop node ssh task envs attempt fuel s).1.retry_count = attempt + fuel ∧
      (retry_loop node ssh task envs attempt fuel s).1.success = false := by
    intro fuel
    induction fuel with
    | zero =>
      intro attempt s
      rw [retry_loop]
      exact ⟨rfl, hfail attempt s⟩
    | succ fuel' ih =>
      intro attempt s
      rw [retry_loop]
      simp only []
      rw [if_neg (by simp [hfail attempt s])]
      obtain ⟨h1, h2⟩ := ih (attempt + 1) _
      constructor
      · rw [h1]; omega
      · exact h2
  have := key task.retry_count 0 st
  simpa [execute_task_with_retry] using this

/-- Witness for C2: a node with no credentials and a dead transport fails all
4 attempts of a `retry_count = 3` task and comes back with `retry_count = 3`
and `success = false`. -/
theorem execute_task_with_retry_exhausted_witness :
    (execute_task_with_retry { id := 1, ip := "10.0.0.1", name := "n1" } {}
        { task_type := .shell_command, command := "false", node_ids := [1], retry_count := 3 }
        (fun _ => { transportActive := false,
                    connectEnv := { keyFileExists := false, envPassword := none,
                                    dialOk := false, now := 0 },
                    cmdOutcome := .error "boom", cmdNow := 0 })
        { connected := false, hasClient := false, last_activity := 0 }).1.retry_count = 3 ∧
    (execute_task_with_retry { id := 1, ip := "10.0.0.1", name := "n1" } {}
        { task_type := .shell_command, command := "false", node_ids := [1], retry_count := 3 }
        (fun _ => { transportActive := false,
                    connectEnv := { keyFileExists := false, envPassword := none,
                                    dialOk := false, now := 0 },
                    cmdOutcome := .error "boom", cmdNow := 0 })
        { connected := false, hasClient := false, last_activity := 0 }).1.success = false :=
  execute_task_with_retry_exhausted _ _ _ _ _
    (by
      intro k s
      unfold execute_task_on_node
      rw [if_neg (by simp [SSHConnection.is_alive])]
      simp [SSHConnection.connect])

/-- Claim C1: whenever the task's (duplicate-free, non-empty) target id list
resolves to `k` nodes, `execute_task` returns exactly `k` results, one per
targeted node id — no duplicates, no omissions — for every worker behaviour
(`envs`), worker fault pattern (`fault`, the synthetic-result path) and
completion order (`order`, any permutation). -/
theorem execute_task_one_result_per_node (cfg : List NodeConfig)
    (ssh : SSHConfig) (task : Task) (pool : NodeConfig → ConnState)
    (envs : NodeConfig → Nat → AttemptEnv) (fault : NodeConfig → Option String)
    (order : List NodeConfig → List NodeConfig)
    (hord : ∀ l : List NodeConfig, (order l).Perm l)
    (hne : task.node_ids ≠ []) (hnd : task.node_ids.Nodup) :
    (execute_task cfg ssh task pool envs fault order).length
        = (get_nodes_by_ids cfg task.node_ids).length ∧
    ((execute_task cfg ssh task pool envs fault order).map (fun r => r.node_id)).Perm
        ((get_nodes_by_ids cfg task.node_ids).map (fun n => n.id)) ∧
    ((execute_task cfg ssh task pool envs fault order).map (fun r => r.node_id)).Nodup := by
  have h1 : task.node_ids.isEmpty = false := by
    cases hl : task.node_ids with
    | nil => exact absurd hl hne
    | cons a t => rfl
  have hids : (execute_task cfg ssh task pool envs fault order).map (fun r => r.node_id)
      = (order (get_nodes_by_ids cfg task.node_ids)).map (fun n => n.id) := by
    unfold execute_task
    rw [h1]
    simp only [Bool.false_eq_true, if_false]
    by_cases hempty : (get_nodes_by_ids cfg task.node_ids).isEmpty
    · rw [if_pos hempty]
      rw [List.isEmpty_iff] at hempty
      have h3 : order (get_nodes_by_ids cfg task.node_ids) = [] := by
        have hp := hord (get_nodes_by_ids cfg task.node_ids)
        rw [hempty]
        rw [hempty] at hp
        exact hp.eq_nil
      rw [h3]
      rfl
    · rw [if_neg hempty]
      rw [List.map_map]
      refine List.map_congr_left ?_
      intro n _
      exact collect_result_node_id ssh task pool envs fault n
  have hperm : ((execute_task cfg ssh task pool envs fault order).map
      (fun r => r.node_id)).Perm
        ((get_nodes_by_ids cfg task.node_ids).map (fun n => n.id)) := by
    rw [hids]
    exact (hord (get_nodes_by_ids cfg task.node_ids)).map _
  have hnodup_target : ((get_nodes_by_ids cfg task.node_ids).map (fun n => n.id)).Nodup := by
    rw [get_nodes_by_ids_map_id]
    exact hnd.filter _
  refine ⟨?_, hperm, ?_⟩
  · have := hperm.length_eq
    simpa using this
  · exact hperm.nodup_iff.mpr hnodup_target

/-- Witness for C1: two resolvable targets, every worker raising, identity
completion order — two synthetic results, ids `[1, 2]`. -/
theorem execute_task_one_result_per_node_witness :
    (execute_task
        [{ id := 1, ip := "a", name := "n1" }, { id := 2, ip := "b", name := "n2" }] {}
        { task_type := .shell_command, command := "echo hi", node_ids := [1, 2] }
        (fun _ => { connected := false, hasClient := false, last_activity := 0 })
        (fun _ _ => { transportActive := false,
                      connectEnv := { keyFileExists := false, envPassword := none,
                                      dialOk := false, now := 0 },
                      cmdOutcome := .error "boom", cmdNow := 0 })
        (fun _ => some "worker crashed") (fun l => l)).length
      = (get_nodes_by_ids
          [{ id := 1, ip := "a", name := "n1" }, { id := 2, ip := "b", name := "n2" }]
          [1, 2]).length ∧
    ((execute_task
        [{ id := 1, ip := "a", name := "n1" }, { id := 2, ip := "b", name := "n2" }] {}
        { task_type := .shell_command, command := "echo hi", node_ids := [1, 2] }
        (fun _ => { connected := false, hasClient := false, last_activity := 0 })
        (fun _ _ => { transportActive := false,
                      connectEnv := { keyFileExists := false, envPassword := none,
                                      dialOk := false, now := 0 },
                      cmdOutcome := .error "boom", cmdNow := 0 })
        (fun _ => some "worker crashed") (fun l => l)).map (fun r => r.node_id)).Nodup :=
  ⟨(execute_task_one_result_per_node _ _ _ _ _ _ _
      (fun l => List.Perm.refl l) (by decide) (by decide)).1,
   (execute_task_one_result_per_node _ _ _ _ _ _ _
      (fun l => List.Perm.refl l) (by decide) (by decide)).2.2⟩

/-! ## ScriptExecutor (src/core/script_executor.py) -/

/-- Python `os.path.basename`. -/
def pyBasename (p : String) : String :=
  String.mk ((p.data.reverse.takeWhile (fun c => c != '/')).reverse)

/-- Does the script content start with one of the two Python shebang prefixes
the source checks for? -/
def py_shebang (content : String) : Bool :=
  strLeads "#!/usr/bin/env python" content || strLeads "#!/usr/bin/python" content

/-- Does the script content start with one of the two bash shebang prefixes
the source checks for? -/
def bash_shebang (content : String) : Bool :=
  strLeads "#!/bin/bash" content || strLeads "#!/usr/bin/bash" content

/-- Does the script content start with any shebang at all? -/
def has_shebang (content : String) : Bool :=
  strLeads "#!" content

/-- Step 3 of `ScriptExecutor._execute_script_on_node`: the interpreter
selection chain, producing the remote run command. -/
def pick_execute_command (remote_script_path script_content args : String) : String :=
  if pyLower (splitext_ext remote_script_path) == ".py" then
    "python3 " ++ remote_script_path ++ " " ++ args
  else if py_shebang script_content then
    "python3 " ++ remote_script_path ++ " " ++ args
  else if pyLower (splitext_ext remote_script_path) == ".sh"
       || pyLower (splitext_ext remote_script_path) == ".bash"
       || bash_shebang script_content then
    "bash " ++ remote_script_path ++ " " ++ args
  else if has_shebang script_content then
    remote_script_path ++ " " ++ args
  else
    "bash " ++ remote_script_path ++ " " ++ args

/-- The heredoc-style command of step 1 (write the script text to the remote
temporary path). -/
def create_script_command (remote_script_path script_content : String) : String :=
  "\ncat > " ++ remote_script_path ++ " << \x27EOF\x27\n" ++ script_content ++ "\nEOF\n"

/-- Environment of one `_execute_script_on_node` call: the transport probe,
the `connect` environment, and — for the up to four sequential
`execute_command` invocations (create, chmod, run, cleanup, indexed 0-3) —
the remote outcome as a function of the submitted command text, plus the
`time.time()` reading of each step. -/
structure ScriptEnv where
  transportActive : Bool
  connectEnv : ConnectEnv
  steps : Nat → String → Except String (Int × String × String)
  nows : Nat → Nat

/-- `ScriptExecutor._execute_script_on_node`: connect (or reuse) the node's
session, then create the remote script file, make it executable, run it with
the selected interpreter, and best-effort remove it; each step's failure
short-circuits the rest and lands in the single returned `TaskResult`, and a
cleanup fault only touches `error_message` (the run verdict stands). -/
def execute_script_on_node (node : NodeConfig) (ssh : SSHConfig) (env : ScriptEnv)
    (st : ConnState) (script_content remote_script_path args : String)
    (timeout : Int) : TaskResult × ConnState :=
  let base : TaskResult :=
    { node_id := node.id, node_name := node.name, node_ip := node.ip,
      task_type := TaskType.shell_command,
      command := "执行脚本: " ++ remote_script_path ++ " " ++ args, success := false }
  match (if SSHConnection.is_alive st env.transportActive then (true, st)
         else SSHConnection.connect node ssh env.connectEnv st) with
  | (false, st') => ({ base with error_message := "无法连接到节点 " ++ node.name }, st')
  | (true, st') =>
    match SSHConnection.execute_command node st'
        (env.steps 0 (create_script_command remote_script_path script_content))
        (env.nows 0) with
    | .error e => ({ base with error_message := e.message }, st')
    | .ok ((code0, _, err0), st1) =>
      if code0 != 0 then
        ({ base with error_message := "创建脚本文件失败: " ++ err0 }, st1)
      else
        match SSHConnection.execute_command node st1
            (env.steps 1 ("chmod +x " ++ remote_script_path)) (env.nows 1) with
        | .error e => ({ base with error_message := e.message }, st1)
        | .ok ((code1, _, err1), st2) =>
          if code1 != 0 then
            ({ base with error_message := "设置脚本权限失败: " ++ err1 }, st2)
          else
            match SSHConnection.execute_command node st2
                (env.steps 2 (pick_execute_command remote_script_path script_content args))
                (env.nows 2) with
            | .error e => ({ base with error_message := e.message }, st2)
            | .ok ((code2, out2, err2), st3) =>
              let r := { base with exit_code := some code2, stdout := out2,
                                   stderr := err2, success := (code2 == 0) }
              match SSHConnection.execute_command node st3
                  (env.steps 3 ("rm -f " ++ remote_script_path)) (env.nows 3) with
              | .error e => ({ r with error_message := e.message }, st3)
              | .ok (_, st4) => (r, st4)

/-- `ScriptExecutor.upload_and_execute_script`: raise `FileNotFoundError` for
a missing local script, else read it and run `_execute_script_on_node`
sequentially over the resolved target nodes, collecting results in node
order.  `file_content` is the local filesystem's view of `script_path`. -/
def upload_and_execute_script (cfg : List NodeConfig) (ssh : SSHConfig)
    (pool : NodeConfig → ConnState) (envs : NodeConfig → ScriptEnv)
    (file_content : Option String) (script_path : String)
    (node_ids : Option (List Int)) (args : String) (timeout : Int)
    (remote_path : String) : Except String (List TaskResult) :=
  match file_content with
  | none => .error ("脚本文件不存在: " ++ script_path)
  | some script_content =>
    let remote_script_path := remote_path ++ "/" ++ pyBasename script_path
    let nodes := match node_ids with
      | none => get_nodes cfg
      | some ids => get_nodes_by_ids cfg ids
    .ok (nodes.map (fun n =>
      (execute_script_on_node n ssh (envs n) (pool n)
        script_content remote_script_path args timeout).1))

/-- `ScriptExecutor.execute_script_content`: like the upload variant but with
the script text supplied directly and staged at `/tmp/<script_name>`. -/
def execute_script_content (cfg : List NodeConfig) (ssh : SSHConfig)
    (pool : NodeConfig → ConnState) (envs : NodeConfig → ScriptEnv)
    (script_content : String) (node_ids : Option (List Int)) (args : String)
    (timeout : Int) (script_name : String) : List TaskResult :=
  let remote_script_path := "/tmp/" ++ script_name
  let nodes := match node_ids with
    | none => get_nodes cfg
    | some ids => get_nodes_by_ids cfg ids
  nodes.map (fun n =>
    (execute_script_on_node n ssh (envs n) (pool n)
      script_content remote_script_path args timeout).1)

/-- The `set --` line prepended by `execute_local_script_remotely` when
positional arguments are supplied. -/
def param_setup_line (args : String) : String :=
  "set -- " ++ joinWith " " ((pySplitWs args).map (fun a => "\"" ++ a ++ "\""))

/-- The command text `ScriptExecutor.execute_local_script_remotely` submits:
the stripped script text, preceded — when `args` is truthy — by a line
setting the positional parameters. -/
def render_local_script (content args : String) : String :=
  if args == "" then pyStrip content
  else param_setup_line args ++ "\n" ++ pyStrip content

/-- `ScriptExecutor.execute_local_script_remotely`: raise for a missing local
script, else submit the rendered text as one `ShellCommand` task through
`execute_shell_command` (whose retry policy comes from the execution
configuration).  The returned value is the submitted task. -/
def execute_local_script_remotely (execCfg : ExecutionConfig)
    (file_content : Option String) (script_path : String)
    (node_ids : Option (List Int)) (args : String) (timeout : Int) :
    Except String Task :=
  match file_content with
  | none => .error ("脚本文件不存在: " ++ script_path)
  | some content =>
    .ok { task_type := .shell_command,
          command := render_local_script content args,
          node_ids := node_ids.getD [],
          timeout := timeout,
          retry_count := execCfg.retry_count,
          retry_delay := execCfg.retry_delay }

/-! ### Claims C7, C8, C10 -/

/-- Counterexample to claim C7 as stated: a script whose content starts with
the sh shebang `#!/bin/sh` (and whose remote path has no extension) is
executed directly (`<path> <args>`), deferring to remote shebang resolution —
not via the shell interpreter `bash <path> <args>` that the claim predicts
for "a bash or sh shebang". -/
theorem interpreter_sh_shebang_counterexample :
    pick_execute_command "/tmp/myscript" "#!/bin/sh\necho hi" "x"
        = "/tmp/myscript x" ∧
    pick_execute_command "/tmp/myscript" "#!/bin/sh\necho hi" "x"
        ≠ "bash /tmp/myscript x" :=
  ⟨by decide, by decide⟩

/-- Claim C7 (amended): the interpreter chosen by
`_execute_script_on_node` is Python when the remote path has a `.py`
extension or the content starts with `#!/usr/bin/env python` or
`#!/usr/bin/python`; bash when (none of the above and) the path has a `.sh`
or `.bash` extension, the content starts with exactly `#!/bin/bash` or
`#!/usr/bin/bash`, or the content has no shebang; and direct execution of
the file for any other shebang (such as `#!/bin/sh` or
`#!/usr/bin/env bash`). -/
theorem interpreter_choice_amended (p c a : String) :
    pick_execute_command p c a =
      (if pyLower (splitext_ext p) == ".py" || py_shebang c then
        "python3 " ++ p ++ " " ++ a
      else if pyLower (splitext_ext p) == ".sh" || pyLower (splitext_ext p) == ".bash"
           || bash_shebang c || !has_shebang c then
        "bash " ++ p ++ " " ++ a
      else p ++ " " ++ a) := by
  unfold pick_execute_command
  cases h1 : pyLower (splitext_ext p) == ".py" <;>
  cases h2 : py_shebang c <;>
  cases h3 : pyLower (splitext_ext p) == ".sh" <;>
  cases h4 : pyLower (splitext_ext p) == ".bash" <;>
  cases h5 : bash_shebang c <;>
  cases h6 : has_shebang c <;>
  simp [h1, h2, h3, h4, h5, h6]

/-- Claim C8: for an existing local script, `execute_local_script_remotely`
with args `"foo bar"` submits a `ShellCommand` task whose command is the
newline-free line `set -- "foo" "bar"` followed by the (stripped) script
body — i.e. its first line sets the positional parameters — and with empty
args the (stripped) script body is submitted unmodified. -/
theorem inline_script_args (execCfg : ExecutionConfig) (body script_path : String)
    (ids : Option (List Int)) (t : Int) :
    (∃ tk, execute_local_script_remotely execCfg (some body) script_path ids "foo bar" t
        = .ok tk ∧
      tk.task_type = TaskType.shell_command ∧
      tk.command = "set -- \"foo\" \"bar\"" ++ "\n" ++ pyStrip body) ∧
    (pyContains "set -- \"foo\" \"bar\"" '\n' = false) ∧
    (∃ tk, execute_local_script_remotely execCfg (some body) script_path ids "" t
        = .ok tk ∧
      tk.command = pyStrip body) := by
  have hp : param_setup_line "foo bar" = "set -- \"foo\" \"bar\"" := by decide
  refine ⟨⟨_, rfl, rfl, ?_⟩, by decide, ⟨_, rfl, rfl⟩⟩
  show render_local_script body "foo bar" = _
  unfold render_local_script
  rw [if_neg (by decide), hp]

/-- Results of a single-node staged script run carry that node's id. -/
theorem execute_script_on_node_node_id (node : NodeConfig) (ssh : SSHConfig)
    (env : ScriptEnv) (st : ConnState) (content rpath args : String) (t : Int) :
    (execute_script_on_node node ssh env st content rpath args t).1.node_id
      = node.id := by
  unfold execute_script_on_node
  split <;> (try split) <;> (try split) <;> (try split) <;> (try split) <;>
    (try split) <;> (try split) <;> rfl

/-- Claim C10: staged script execution (`upload_and_execute_script` and
`execute_script_content`) processes the resolved nodes sequentially in the
order node resolution returns them — the requested id-list order with
unknown ids silently dropped — and returns its results in that same order
(whereas `execute_task` collects in completion order, cf. the `order`
parameter of `execute_task`). -/
theorem script_execution_order (cfg : List NodeConfig) (ssh : SSHConfig)
    (pool : NodeConfig → ConnState) (envs : NodeConfig → ScriptEnv)
    (content script_path args script_name rpath : String) (t : Int)
    (ids : List Int) :
    (∃ rs, upload_and_execute_script cfg ssh pool envs (some content) script_path
        (some ids) args t rpath = .ok rs ∧
      rs.map (fun r => r.node_id)
        = ids.filter (fun i => (get_node_by_id cfg i).isSome)) ∧
    ((execute_script_content cfg ssh pool envs content (some ids) args t
        script_name).map (fun r => r.node_id)
      = ids.filter (fun i => (get_node_by_id cfg i).isSome)) := by
  have key : ∀ rpath' : String,
      ((get_nodes_by_ids cfg ids).map (fun n =>
        (execute_script_on_node n ssh (envs n) (pool n) content rpath' args t).1)).map
          (fun r => r.node_id)
        = ids.filter (fun i => (get_node_by_id cfg i).isSome) := by
    intro rpath'
    rw [List.map_map]
    rw [show ((fun r : TaskResult => r.node_id) ∘ fun n : NodeConfig =>
        (execute_script_on_node n ssh (envs n) (pool n) content rpath' args t).1)
          = fun n : NodeConfig =>
        (execute_script_on_node n ssh (envs n) (pool n) content rpath' args t).1.node_id
      from rfl]
    rw [List.map_congr_left (fun n _ =>
      execute_script_on_node_node_id n ssh (envs n) (pool n) content rpath' args t)]
    exact get_nodes_by_ids_map_id cfg ids
  exact ⟨⟨_, rfl, key _⟩, key _⟩

end Xpod
